import Mathlib

/-!
Shallow embedding of the TryNano faucet server (`src/index.js`,
`src/returnAllNanoToFaucet.js`) and proofs about its request handling,
faucet-eligibility policy and sweep job.

Timestamps are JavaScript `Date.now()` values, i.e. integer milliseconds.
DynamoDB reads are passed in as explicit inputs; every DynamoDB write and
every wallet-network call the code performs is recorded in an explicit
effect log carried in each operation's result, so frame properties
("no write happened") are statements about those logs.
-/

namespace TryNano

/-! ### Configuration constants (src/index.js lines 20-27) -/

def WALLET_EXPIRATION_TIME_SECONDS : ℤ := 259200

def FAUCET_IP_HISTORY_EXPIRATION_TIME_SECONDS : ℤ := 172800

def FAUCET_THROTTLE_DURATION_SECONDS : ℚ := 600

def FAUCET_INVOKE_LIMIT : ℕ := 10

def FAUCET_RESET_TIME_HOURS : ℚ := 24

def FAUCET_PERCENT : ℚ := 15 / 100000

/-- JavaScript `Math.round`: rounds to the nearest integer, halves toward
positive infinity. -/
def jsMathRound (q : ℚ) : ℤ := ⌊q + 1 / 2⌋

/-! ### IP usage history records (table `FaucetIpHistory`) -/

/-- One record of the `FaucetIpHistory` table, as unmarshalled by
`checkFaucetEligibility`: invocation count, last-used timestamp in
epoch milliseconds, and the TTL expiration timestamp in epoch seconds. -/
structure IpHistory where
  ipAddress : String
  numFaucetInvocations : ℕ
  lastUsedTs : ℤ
  expirationTime : ℤ
deriving DecidableEq, Repr

/-- Result of `checkFaucetEligibility`: the returned eligibility status
plus the write (if any) it performed on the `FaucetIpHistory` table. -/
structure EligResult where
  isEligible : Bool
  reason : Option String
  write : Option IpHistory
deriving DecidableEq, Repr

def throttleReason : String :=
  "Faucet was used within the past 10 minutes, please try again later."

def limitReason : String :=
  "You have reached the max number of faucet uses, please try again after 24 hours."

/-- `checkFaucetEligibility` (src/index.js lines 388-472). `ts` is the
`Date.now()` reading taken at the top of the function, `stored` the
record (if any) the `getItem` call returns for `ipAddress`. -/
def checkFaucetEligibility (ipAddress : String) (ts : ℤ) (stored : Option IpHistory) :
    EligResult :=
  let expirationTime : ℤ :=
    jsMathRound ((ts : ℚ) / 1000) + FAUCET_IP_HISTORY_EXPIRATION_TIME_SECONDS
  match stored with
  | none =>
      { isEligible := true
        reason := none
        write := some
          { ipAddress := ipAddress
            numFaucetInvocations := 1
            lastUsedTs := ts
            expirationTime := expirationTime } }
  | some ipHistoryData =>
      let currNumInvokes : ℕ := ipHistoryData.numFaucetInvocations + 1
      let numSecondsSinceLastInvoke : ℚ :=
        ((ts : ℚ) - (ipHistoryData.lastUsedTs : ℚ)) / 1000
      let numHoursSinceLastInvoke : ℚ := numSecondsSinceLastInvoke / 3600
      if numSecondsSinceLastInvoke < FAUCET_THROTTLE_DURATION_SECONDS then
        { isEligible := false, reason := some throttleReason, write := none }
      else if (FAUCET_INVOKE_LIMIT : ℕ) < currNumInvokes ∧
          numHoursSinceLastInvoke < FAUCET_RESET_TIME_HOURS then
        { isEligible := false, reason := some limitReason, write := none }
      else
        { isEligible := true
          reason := none
          write := some
            { ipAddress := ipAddress
              numFaucetInvocations :=
                if numHoursSinceLastInvoke < 24 then currNumInvokes else 1
              lastUsedTs := ts
              expirationTime := expirationTime } }

/-! ### Claim theorems about the eligibility policy -/

/-- C1: when the seconds elapsed since the last use are below the 600
second throttle duration, `checkFaucetEligibility` rejects with the
throttle reason and performs no write on the history record. -/
theorem throttled_request_rejected_without_write
    (ip : String) (ts : ℤ) (h : IpHistory)
    (hlt : ((ts : ℚ) - (h.lastUsedTs : ℚ)) / 1000 < FAUCET_THROTTLE_DURATION_SECONDS) :
    checkFaucetEligibility ip ts (some h) =
      { isEligible := false, reason := some throttleReason, write := none } := by
  simp only [checkFaucetEligibility]
  rw [if_pos hlt]

theorem throttled_request_rejected_without_write_witness :
    ((300000 : ℚ) - 0) / 1000 < FAUCET_THROTTLE_DURATION_SECONDS ∧
      checkFaucetEligibility "1.2.3.4" 300000 (some ⟨"1.2.3.4", 3, 0, 172800⟩) =
        { isEligible := false, reason := some throttleReason, write := none } :=
  ⟨by norm_num [FAUCET_THROTTLE_DURATION_SECONDS],
    throttled_request_rejected_without_write "1.2.3.4" 300000 ⟨"1.2.3.4", 3, 0, 172800⟩
      (by norm_num [FAUCET_THROTTLE_DURATION_SECONDS])⟩

/-- C2: when the throttle duration has already elapsed but the invocation
count would exceed the limit of 10 and fewer than 24 hours have passed,
`checkFaucetEligibility` rejects with the limit reason and performs no
write on the history record. -/
theorem limit_reached_rejected_without_write
    (ip : String) (ts : ℤ) (h : IpHistory)
    (hthr : FAUCET_THROTTLE_DURATION_SECONDS ≤ ((ts : ℚ) - (h.lastUsedTs : ℚ)) / 1000)
    (hcount : (FAUCET_INVOKE_LIMIT : ℕ) < h.numFaucetInvocations + 1)
    (hhours : ((ts : ℚ) - (h.lastUsedTs : ℚ)) / 1000 / 3600 < FAUCET_RESET_TIME_HOURS) :
    checkFaucetEligibility ip ts (some h) =
      { isEligible := false, reason := some limitReason, write := none } := by
  simp only [checkFaucetEligibility]
  rw [if_neg (not_lt.mpr hthr), if_pos ⟨hcount, hhours⟩]

theorem limit_reached_rejected_without_write_witness :
    (FAUCET_THROTTLE_DURATION_SECONDS ≤ (((3600000 : ℤ) : ℚ) - ((0 : ℤ) : ℚ)) / 1000 ∧
        (FAUCET_INVOKE_LIMIT : ℕ) < 10 + 1 ∧
        (((3600000 : ℤ) : ℚ) - ((0 : ℤ) : ℚ)) / 1000 / 3600 < FAUCET_RESET_TIME_HOURS) ∧
      checkFaucetEligibility "1.2.3.4" 3600000 (some ⟨"1.2.3.4", 10, 0, 172800⟩) =
        { isEligible := false, reason := some limitReason, write := none } :=
  ⟨⟨by norm_num [FAUCET_THROTTLE_DURATION_SECONDS],
    by norm_num [FAUCET_INVOKE_LIMIT],
    by norm_num [FAUCET_RESET_TIME_HOURS]⟩,
    limit_reached_rejected_without_write "1.2.3.4" 3600000 ⟨"1.2.3.4", 10, 0, 172800⟩
      (by norm_num [FAUCET_THROTTLE_DURATION_SECONDS])
      (by norm_num [FAUCET_INVOKE_LIMIT])
      (by norm_num [FAUCET_RESET_TIME_HOURS])⟩

/-- C3: when both the throttle check and the limit check pass,
`checkFaucetEligibility` allows the request and writes an updated record:
the count resets to 1 when at least 24 hours (the reset window) have
elapsed and increments to `count + 1` otherwise; last-used becomes `ts`
and the TTL expiry becomes `round(ts / 1000) + 172800` seconds. -/
theorem allow_writes_updated_record
    (ip : String) (ts : ℤ) (h : IpHistory)
    (hthr : FAUCET_THROTTLE_DURATION_SECONDS ≤ ((ts : ℚ) - (h.lastUsedTs : ℚ)) / 1000)
    (hlim : ¬((FAUCET_INVOKE_LIMIT : ℕ) < h.numFaucetInvocations + 1 ∧
        ((ts : ℚ) - (h.lastUsedTs : ℚ)) / 1000 / 3600 < FAUCET_RESET_TIME_HOURS)) :
    checkFaucetEligibility ip ts (some h) =
      { isEligible := true
        reason := none
        write := some
          { ipAddress := ip
            numFaucetInvocations :=
              if FAUCET_RESET_TIME_HOURS ≤ ((ts : ℚ) - (h.lastUsedTs : ℚ)) / 1000 / 3600
              then 1 else h.numFaucetInvocations + 1
            lastUsedTs := ts
            expirationTime :=
              jsMathRound ((ts : ℚ) / 1000) + FAUCET_IP_HISTORY_EXPIRATION_TIME_SECONDS } } := by
  simp only [checkFaucetEligibility]
  rw [if_neg (not_lt.mpr hthr), if_neg hlim]
  rcases lt_or_le (((ts : ℚ) - (h.lastUsedTs : ℚ)) / 1000 / 3600) 24 with hc | hc
  · rw [if_pos hc, if_neg (not_le.mpr (by simpa [FAUCET_RESET_TIME_HOURS] using hc))]
  · rw [if_neg (not_lt.mpr hc), if_pos (by simpa [FAUCET_RESET_TIME_HOURS] using hc)]

theorem allow_writes_updated_record_witness :
    (FAUCET_THROTTLE_DURATION_SECONDS ≤ (((3600000 : ℤ) : ℚ) - ((0 : ℤ) : ℚ)) / 1000 ∧
        ¬((FAUCET_INVOKE_LIMIT : ℕ) < 3 + 1 ∧
          (((3600000 : ℤ) : ℚ) - ((0 : ℤ) : ℚ)) / 1000 / 3600 < FAUCET_RESET_TIME_HOURS)) ∧
      checkFaucetEligibility "1.2.3.4" 3600000 (some ⟨"1.2.3.4", 3, 0, 172800⟩) =
        { isEligible := true
          reason := none
          write := some ⟨"1.2.3.4", 4, 3600000, 176400⟩ } :=
  ⟨⟨by norm_num [FAUCET_THROTTLE_DURATION_SECONDS],
    by norm_num [FAUCET_INVOKE_LIMIT]⟩, by
    have h1 := allow_writes_updated_record "1.2.3.4" 3600000 ⟨"1.2.3.4", 3, 0, 172800⟩
      (by norm_num [FAUCET_THROTTLE_DURATION_SECONDS])
      (by norm_num [FAUCET_INVOKE_LIMIT])
    rw [h1]
    norm_num [FAUCET_RESET_TIME_HOURS, FAUCET_IP_HISTORY_EXPIRATION_TIME_SECONDS,
      jsMathRound]⟩

/-- C4: with no stored history, `checkFaucetEligibility` allows the
request and writes a fresh record with count 1, last-used `ts` and TTL
expiry `round(ts / 1000) + 172800` seconds. -/
theorem no_history_allows_with_fresh_record (ip : String) (ts : ℤ) :
    checkFaucetEligibility ip ts none =
      { isEligible := true
        reason := none
        write := some
          { ipAddress := ip
            numFaucetInvocations := 1
            lastUsedTs := ts
            expirationTime :=
              jsMathRound ((ts : ℚ) / 1000) + FAUCET_IP_HISTORY_EXPIRATION_TIME_SECONDS } } :=
  rfl

/-! ### A relational view of one evaluation run, for the determinism claim.
Each constructor is one return path of `checkFaucetEligibility`; its
hypotheses are the branch conditions that lead the control flow there. -/

inductive EligSpec (ip : String) (ts : ℤ) : Option IpHistory → EligResult → Prop
  | noHistory :
      EligSpec ip ts none
        { isEligible := true
          reason := none
          write := some
            { ipAddress := ip
              numFaucetInvocations := 1
              lastUsedTs := ts
              expirationTime :=
                jsMathRound ((ts : ℚ) / 1000) + FAUCET_IP_HISTORY_EXPIRATION_TIME_SECONDS } }
  | throttled (h : IpHistory)
      (hthr : ((ts : ℚ) - (h.lastUsedTs : ℚ)) / 1000 < FAUCET_THROTTLE_DURATION_SECONDS) :
      EligSpec ip ts (some h)
        { isEligible := false, reason := some throttleReason, write := none }
  | limitReached (h : IpHistory)
      (hthr : ¬(((ts : ℚ) - (h.lastUsedTs : ℚ)) / 1000 < FAUCET_THROTTLE_DURATION_SECONDS))
      (hlim : (FAUCET_INVOKE_LIMIT : ℕ) < h.numFaucetInvocations + 1 ∧
        ((ts : ℚ) - (h.lastUsedTs : ℚ)) / 1000 / 3600 < FAUCET_RESET_TIME_HOURS) :
      EligSpec ip ts (some h)
        { isEligible := false, reason := some limitReason, write := none }
  | allowed (h : IpHistory)
      (hthr : ¬(((ts : ℚ) - (h.lastUsedTs : ℚ)) / 1000 < FAUCET_THROTTLE_DURATION_SECONDS))
      (hlim : ¬((FAUCET_INVOKE_LIMIT : ℕ) < h.numFaucetInvocations + 1 ∧
        ((ts : ℚ) - (h.lastUsedTs : ℚ)) / 1000 / 3600 < FAUCET_RESET_TIME_HOURS)) :
      EligSpec ip ts (some h)
        { isEligible := true
          reason := none
          write := some
            { ipAddress := ip
              numFaucetInvocations :=
                if ((ts : ℚ) - (h.lastUsedTs : ℚ)) / 1000 / 3600 < 24
                then h.numFaucetInvocations + 1 else 1
              lastUsedTs := ts
              expirationTime :=
                jsMathRound ((ts : ℚ) / 1000) + FAUCET_IP_HISTORY_EXPIRATION_TIME_SECONDS } }

/-- Any evaluation run produces exactly the value computed by
`checkFaucetEligibility`. -/
lemma eligSpec_eq_run {ip : String} {ts : ℤ} {st : Option IpHistory} {r : EligResult}
    (d : EligSpec ip ts st r) : r = checkFaucetEligibility ip ts st := by
  cases d with
  | noHistory => rfl
  | throttled h hthr =>
      simp only [checkFaucetEligibility]
      rw [if_pos hthr]
  | limitReached h hthr hlim =>
      simp only [checkFaucetEligibility]
      rw [if_neg hthr, if_pos hlim]
  | allowed h hthr hlim =>
      simp only [checkFaucetEligibility]
      rw [if_neg hthr, if_neg hlim]

/-- C8: two evaluation runs over the same inputs (the same `ip`, the
same `ts`, the same unmodified stored history) produce the same
decision, and that decision is the value of the function
`checkFaucetEligibility` of those inputs. -/
theorem evaluate_deterministic
    (ip : String) (ts : ℤ) (st : Option IpHistory) (r₁ r₂ : EligResult)
    (d₁ : EligSpec ip ts st r₁) (d₂ : EligSpec ip ts st r₂) :
    r₁ = r₂ ∧ r₁ = checkFaucetEligibility ip ts st :=
  ⟨(eligSpec_eq_run d₁).trans (eligSpec_eq_run d₂).symm, eligSpec_eq_run d₁⟩

theorem evaluate_deterministic_witness :
    ({ isEligible := true
       reason := none
       write := some
         { ipAddress := "9.9.9.9"
           numFaucetInvocations := 1
           lastUsedTs := (0 : ℤ)
           expirationTime :=
             jsMathRound (((0 : ℤ) : ℚ) / 1000) +
               FAUCET_IP_HISTORY_EXPIRATION_TIME_SECONDS } } : EligResult) =
      { isEligible := true
        reason := none
        write := some
          { ipAddress := "9.9.9.9"
            numFaucetInvocations := 1
            lastUsedTs := (0 : ℤ)
            expirationTime :=
              jsMathRound (((0 : ℤ) : ℚ) / 1000) +
                FAUCET_IP_HISTORY_EXPIRATION_TIME_SECONDS } } ∧
      ({ isEligible := true
         reason := none
         write := some
           { ipAddress := "9.9.9.9"
             numFaucetInvocations := 1
             lastUsedTs := (0 : ℤ)
             expirationTime :=
               jsMathRound (((0 : ℤ) : ℚ) / 1000) +
                 FAUCET_IP_HISTORY_EXPIRATION_TIME_SECONDS } } : EligResult) =
        checkFaucetEligibility "9.9.9.9" 0 none :=
  evaluate_deterministic "9.9.9.9" 0 none _ _ EligSpec.noHistory EligSpec.noHistory

/-! ### HTTP responses (src/index.js lines 314-324) -/

/-- The JSON bodies the embedded handlers produce. -/
inductive RespBody where
  | emptyObj
  | errObj (error : String)
  | str (s : String)
  | sendOk (address : String) (balance : String) (sendTimestamp : ℤ)
  | faucetOk (address : String) (balance : String)
deriving DecidableEq, Repr

def corsHeaders : List (String × String) :=
  [("Access-Control-Allow-Headers", "Content-Type, X-Recaptcha, X-Api-Key"),
   ("Access-Control-Allow-Origin", "*"),
   ("Access-Control-Allow-Methods", "OPTIONS,POST,GET")]

structure HttpResp where
  statusCode : ℕ
  headers : List (String × String)
  body : RespBody
deriving DecidableEq, Repr

def response (code : ℕ) (body : RespBody) : HttpResp :=
  { statusCode := code, headers := corsHeaders, body := body }

/-! ### Environment validation (src/index.js lines 10-15, 502-518) -/

/-- The process environment variables the Lambda reads; `none` models an
unset variable, `some ""` an empty one — both are falsy in JavaScript. -/
structure Config where
  PUBLIC_KEY : Option String
  PRIVATE_KEY : Option String
  FAUCET_ADDRESS : Option String
  CAPTCHA_SECRET : Option String
  NANOBOX_USER : Option String
  NANOBOX_PASSWORD : Option String

/-- JavaScript truthiness of a possibly-unset string value. -/
def truthy : Option String → Bool
  | none => false
  | some s => s != ""

def validateState (cfg : Config) : Option String :=
  if !truthy cfg.FAUCET_ADDRESS then
    some "ADDRESS key missing from .env - you must fix"
  else if !truthy cfg.PUBLIC_KEY then
    some "PUBLIC_KEY key missing from .env - you must fix"
  else if !truthy cfg.PRIVATE_KEY then
    some "PRIVATE_KEY key missing from .env - you must fix"
  else if !truthy cfg.CAPTCHA_SECRET then
    some "CAPTCHA_SECRET key missing from .env - you must fix"
  else if !truthy cfg.NANOBOX_USER then
    some "NANOBOX_USER key missing from .env - you must fix"
  else if !truthy cfg.NANOBOX_PASSWORD then
    some "NANOBOX_PASSWORD key missing from .env - you must fix"
  else
    none

/-! ### Request routing (src/index.js lines 41-83) -/

/-- The parts of the API Gateway event the routing logic inspects; `body`
is the raw request body text, if any. -/
structure Event where
  method : String
  xRecaptcha : Option String
  rawPath : String
  body : Option String

def apiPaths : List String :=
  ["/api/createWallets", "/api/send", "/api/receive", "/api/getFromFaucet",
   "/api/receivePendingFaucetTransactions"]

/-- The Lambda entry point (src/index.js lines 55-83), including its
try/catch. `captcha` models the success flag of `validateCaptcha` for a
given token (the code consults it only for a truthy token — an absent or
empty header short-circuits to undefined, hence 403). `jsonParse` models
`JSON.parse` on a body text, `none` standing for a thrown parse error,
which the surrounding catch turns into the generic 500; `emptyParams`
is the `{}` the code uses when the body is absent or empty (falsy).
`apiImpl` is the routed API method selected from `apiMapping`, `none`
standing for a thrown exception, again caught as the generic 500. -/
def handler {P : Type} (cfg : Config) (captcha : String → Bool)
    (jsonParse : String → Option P) (emptyParams : P)
    (apiImpl : String → P → Option HttpResp) (event : Event) : HttpResp :=
  if event.method == "OPTIONS" then
    response 200 RespBody.emptyObj
  else
    match validateState cfg with
    | some error => response 500 (RespBody.errObj error)
    | none =>
        let captchaSuccess : Bool :=
          match event.xRecaptcha with
          | none => false
          | some token => token != "" && captcha token
        if !captchaSuccess then
          response 403 (RespBody.errObj "access denied: invalid recaptcha token")
        else
          let paramsOpt : Option P :=
            match event.body with
            | none => some emptyParams
            | some bodyText =>
                if bodyText == "" then some emptyParams else jsonParse bodyText
          match paramsOpt with
          | none =>
              response 500 (RespBody.errObj "Server error, please try again later!")
          | some params =>
              if apiPaths.contains event.rawPath then
                match apiImpl event.rawPath params with
                | none =>
                    response 500 (RespBody.errObj "Server error, please try again later!")
                | some r => r
              else
                response 404 (RespBody.str "not found")

/-- A fully set configuration, for concrete handler runs. -/
def exConfig : Config :=
  { PUBLIC_KEY := some "pub", PRIVATE_KEY := some "priv"
    FAUCET_ADDRESS := some "nano_faucet", CAPTCHA_SECRET := some "sec"
    NANOBOX_USER := some "user", NANOBOX_PASSWORD := some "pass" }

/-- C7 counterexample: a non-OPTIONS request with full configuration and
a valid recaptcha token whose path matches no API mapping does NOT
receive a 404 when its body fails to parse as JSON — `JSON.parse` runs
before the mapping lookup and its exception is caught as the generic
500. -/
theorem handler_unmapped_path_counterexample :
    handler exConfig (fun _ => true) (fun _ => (none : Option Unit)) ()
        (fun _ _ => some (response 200 RespBody.emptyObj))
        { method := "POST", xRecaptcha := some "tok", rawPath := "/bogus",
          body := some "oops" } =
      response 500 (RespBody.errObj "Server error, please try again later!") ∧
    handler exConfig (fun _ => true) (fun _ => (none : Option Unit)) ()
        (fun _ _ => some (response 200 RespBody.emptyObj))
        { method := "POST", xRecaptcha := some "tok", rawPath := "/bogus",
          body := some "oops" } ≠
      response 404 (RespBody.str "not found") :=
  ⟨rfl, by decide⟩

/-- C7 (amended): the handler decides in this order: OPTIONS requests get
an empty 200; then missing configuration gets a 500 with the descriptive
message; then an absent, empty or invalid recaptcha token gets a 403;
then a present, non-empty body that fails to parse as JSON gets the
generic 500 (regardless of path); then an unmapped path gets a 404. -/
theorem handler_decision_order {P : Type} (cfg : Config) (captcha : String → Bool)
    (jsonParse : String → Option P) (emptyParams : P)
    (apiImpl : String → P → Option HttpResp) (ev : Event) :
    (ev.method = "OPTIONS" →
      handler cfg captcha jsonParse emptyParams apiImpl ev =
        response 200 RespBody.emptyObj) ∧
    (ev.method ≠ "OPTIONS" → ∀ msg, validateState cfg = some msg →
      handler cfg captcha jsonParse emptyParams apiImpl ev =
        response 500 (RespBody.errObj msg)) ∧
    (ev.method ≠ "OPTIONS" → validateState cfg = none →
      (ev.xRecaptcha = none ∨ ev.xRecaptcha = some "" ∨
        ∃ t, ev.xRecaptcha = some t ∧ captcha t = false) →
      handler cfg captcha jsonParse emptyParams apiImpl ev =
        response 403 (RespBody.errObj "access denied: invalid recaptcha token")) ∧
    (ev.method ≠ "OPTIONS" → validateState cfg = none →
      (∃ t, ev.xRecaptcha = some t ∧ t ≠ "" ∧ captcha t = true) →
      ∀ bodyText, ev.body = some bodyText → bodyText ≠ "" →
      jsonParse bodyText = none →
      handler cfg captcha jsonParse emptyParams apiImpl ev =
        response 500 (RespBody.errObj "Server error, please try again later!")) ∧
    (ev.method ≠ "OPTIONS" → validateState cfg = none →
      (∃ t, ev.xRecaptcha = some t ∧ t ≠ "" ∧ captcha t = true) →
      (ev.body = none ∨ ev.body = some "" ∨
        ∃ b p, ev.body = some b ∧ jsonParse b = some p) →
      apiPaths.contains ev.rawPath = false →
      handler cfg captcha jsonParse emptyParams apiImpl ev =
        response 404 (RespBody.str "not found")) := by
  refine ⟨fun hm => ?_, fun hm msg hv => ?_, fun hm hv hc => ?_,
    fun hm hv hc bodyText hb hbne hp => ?_, fun hm hv hc hb hpath => ?_⟩
  · simp [handler, hm]
  · simp [handler, hm, hv]
  · rcases hc with hnone | hempty | ⟨t, ht, hf⟩
    · simp [handler, hm, hv, hnone]
    · simp [handler, hm, hv, hempty]
    · simp [handler, hm, hv, ht, hf]
  · rcases hc with ⟨t, ht, htne, htrue⟩
    simp [handler, hm, hv, ht, htne, htrue, hb, hbne, hp]
  · rcases hc with ⟨t, ht, htne, htrue⟩
    simp at hpath
    rcases hb with hnone | hempty | ⟨b, p, hsome, hparse⟩
    · simp [handler, hm, hv, ht, htne, htrue, hnone, hpath]
    · simp [handler, hm, hv, ht, htne, htrue, hempty, hpath]
    · rcases eq_or_ne b "" with rfl | hbne
      · simp [handler, hm, hv, ht, htne, htrue, hsome, hparse, hpath]
      · simp [handler, hm, hv, ht, htne, htrue, hsome, hparse, hpath, hbne]

theorem handler_decision_order_witness :
    handler exConfig (fun _ => true) (fun _ => (none : Option Unit)) ()
        (fun _ _ => some (response 200 RespBody.emptyObj))
        { method := "POST", xRecaptcha := some "tok", rawPath := "/bogus",
          body := none } =
      response 404 (RespBody.str "not found") :=
  (handler_decision_order exConfig (fun _ => true) (fun _ => (none : Option Unit)) ()
      (fun _ _ => some (response 200 RespBody.emptyObj))
      { method := "POST", xRecaptcha := some "tok", rawPath := "/bogus",
        body := none }).2.2.2.2
    (by decide) rfl ⟨"tok", rfl, by decide, rfl⟩ (Or.inl rfl) (by decide)

/-! ### Wallets and the nano network client.
DynamoDB wallet reads are an explicit lookup function; the results of the
`@nanobox/nano-client` calls are explicit oracle functions, and every call
the code issues is recorded, in order, in a `netCalls` log. -/

/-- A wallet as `loadNanoAccountFromDB` returns it (src/index.js 332-354). -/
structure NanoAccount where
  address : String
  publicKey : String
  privateKey : String
deriving DecidableEq, Repr

/-- The part of `updateWalletAccount`'s result the code inspects. -/
structure AccountInfo where
  balanceAsNumber : ℚ
deriving DecidableEq, Repr

/-- The part of a `send`/`sendMax` result the code inspects. -/
structure SendResult where
  balanceAsString : String
deriving DecidableEq, Repr

/-- A client-supplied NANO amount object (`params.amount`). -/
structure UserAmount where
  asString : String
deriving DecidableEq, Repr

/-- An amount argument of `c.send`: either the client-supplied object or
the result of `NANO.fromNumber` on a computed number. -/
inductive AmountV where
  | ofUser (a : UserAmount)
  | ofNumber (q : ℚ)
deriving DecidableEq, Repr

/-- One call to the nano network client. -/
inductive NetCall where
  | updateWalletAccount (account : NanoAccount)
  | send (sender : NanoAccount) (toAddress : String) (amount : AmountV)
  | sendMax (sender : NanoAccount) (toAddress : String)
deriving DecidableEq, Repr

/-- Response oracles for the nano network client: what each call would
return, `none` modelling an undefined result. -/
structure NanoNetwork where
  updateWalletAccount : NanoAccount → Option AccountInfo
  send : NanoAccount → String → AmountV → Option SendResult
  sendMax : NanoAccount → String → Option SendResult

/-! ### `send` (src/index.js lines 128-189) -/

structure SendParams where
  fromAddress : String
  privateKey : String
  toAddress : String
  amount : Option UserAmount
deriving DecidableEq, Repr

/-- Result of one `send` invocation: the HTTP response, the network calls
issued (in order) and the writes performed on the wallet table. -/
structure SendOutcome where
  resp : HttpResp
  netCalls : List NetCall
  walletWrites : List (String × String)
deriving DecidableEq, Repr

def send (db : String → Option NanoAccount) (net : NanoNetwork) (ts : ℤ)
    (params : SendParams) : SendOutcome :=
  match db params.fromAddress with
  | none =>
      { resp := response 400
          (RespBody.errObj (params.fromAddress ++ " is an invalid wallet address"))
        netCalls := [], walletWrites := [] }
  | some acc =>
      if params.privateKey != acc.privateKey then
        { resp := response 400
            (RespBody.errObj ("invalid private key for wallet address " ++ params.fromAddress))
          netCalls := [], walletWrites := [] }
      else
        match net.updateWalletAccount acc with
        | none =>
            { resp := response 500
                (RespBody.errObj "unable to retrieve account info for address sending Nano")
              netCalls := [NetCall.updateWalletAccount acc], walletWrites := [] }
        | some accountInfo =>
            if accountInfo.balanceAsNumber = 0 then
              { resp := response 400 (RespBody.errObj "wallet balance is zero")
                netCalls := [NetCall.updateWalletAccount acc], walletWrites := [] }
            else
              match params.amount with
              | some amount =>
                  if amount.asString == "0" then
                    { resp := response 400
                        (RespBody.errObj "Unable to send zero amount of Nano")
                      netCalls := [NetCall.updateWalletAccount acc], walletWrites := [] }
                  else
                    match net.send acc params.toAddress (AmountV.ofUser amount) with
                    | none =>
                        { resp := response 500
                            (RespBody.errObj ("unable to send from " ++ params.fromAddress ++
                              " to " ++ params.toAddress))
                          netCalls := [NetCall.updateWalletAccount acc,
                            NetCall.send acc params.toAddress (AmountV.ofUser amount)]
                          walletWrites := [] }
                    | some res =>
                        { resp := response 200
                            (RespBody.sendOk params.fromAddress res.balanceAsString ts)
                          netCalls := [NetCall.updateWalletAccount acc,
                            NetCall.send acc params.toAddress (AmountV.ofUser amount)]
                          walletWrites := [(params.fromAddress, res.balanceAsString)] }
              | none =>
                  match net.sendMax acc params.toAddress with
                  | none =>
                      { resp := response 500
                          (RespBody.errObj ("unable to send from " ++ params.fromAddress ++
                            " to " ++ params.toAddress))
                        netCalls := [NetCall.updateWalletAccount acc,
                          NetCall.sendMax acc params.toAddress]
                        walletWrites := [] }
                  | some res =>
                      { resp := response 200
                          (RespBody.sendOk params.fromAddress res.balanceAsString ts)
                        netCalls := [NetCall.updateWalletAccount acc,
                          NetCall.sendMax acc params.toAddress]
                        walletWrites := [(params.fromAddress, res.balanceAsString)] }

/-! ### Concrete inputs exercising the zero-amount path of `send` -/

def exSenderAccount : NanoAccount :=
  { address := "nano_sender", publicKey := "pub", privateKey := "priv" }

def exSendDb : String → Option NanoAccount :=
  fun a => if a == "nano_sender" then some exSenderAccount else none

def exSendNet : NanoNetwork :=
  { updateWalletAccount := fun _ => some { balanceAsNumber := 5 }
    send := fun _ _ _ => some { balanceAsString := "0" }
    sendMax := fun _ _ => some { balanceAsString := "0" } }

def exZeroSendParams : SendParams :=
  { fromAddress := "nano_sender", privateKey := "priv", toAddress := "nano_to"
    amount := some { asString := "0" } }

/-- C6 counterexample: on a zero-amount request from a valid wallet the
response is indeed the 400 invalid-amount rejection, but the network-call
log is not empty — the account-info query has already gone out, so the
rejection does not happen before any network call. -/
theorem send_zero_amount_counterexample :
    (send exSendDb exSendNet 1000 exZeroSendParams).resp =
      response 400 (RespBody.errObj "Unable to send zero amount of Nano") ∧
    (send exSendDb exSendNet 1000 exZeroSendParams).netCalls ≠ [] :=
  ⟨rfl, by decide⟩

/-- C6 (amended): when the sender wallet exists, the supplied private key
matches, the account-info query succeeds with a nonzero balance, and the
request carries an amount whose string form is "0", `send` rejects with
400 "Unable to send zero amount of Nano" before any send or send-max
network call — the single network call on the log is the account-info
query — and writes nothing to the wallet table. -/
theorem send_zero_amount_rejected_before_send_call
    (db : String → Option NanoAccount) (net : NanoNetwork) (ts : ℤ)
    (params : SendParams) (acc : NanoAccount) (info : AccountInfo) (amount : UserAmount)
    (hacc : db params.fromAddress = some acc)
    (hkey : params.privateKey = acc.privateKey)
    (hinfo : net.updateWalletAccount acc = some info)
    (hbal : info.balanceAsNumber ≠ 0)
    (hamt : params.amount = some amount)
    (hzero : amount.asString = "0") :
    send db net ts params =
      { resp := response 400 (RespBody.errObj "Unable to send zero amount of Nano")
        netCalls := [NetCall.updateWalletAccount acc]
        walletWrites := [] } := by
  simp [send, hacc, hkey, hinfo, hbal, hamt, hzero]

theorem send_zero_amount_rejected_before_send_call_witness :
    (exSendDb exZeroSendParams.fromAddress = some exSenderAccount ∧
        exZeroSendParams.privateKey = exSenderAccount.privateKey ∧
        exSendNet.updateWalletAccount exSenderAccount = some { balanceAsNumber := 5 } ∧
        ({ balanceAsNumber := 5 } : AccountInfo).balanceAsNumber ≠ 0 ∧
        exZeroSendParams.amount = some { asString := "0" } ∧
        ({ asString := "0" } : UserAmount).asString = "0") ∧
      send exSendDb exSendNet 1000 exZeroSendParams =
        { resp := response 400 (RespBody.errObj "Unable to send zero amount of Nano")
          netCalls := [NetCall.updateWalletAccount exSenderAccount]
          walletWrites := [] } :=
  ⟨⟨rfl, rfl, rfl, by norm_num, rfl, rfl⟩,
    send_zero_amount_rejected_before_send_call exSendDb exSendNet 1000 exZeroSendParams
      exSenderAccount { balanceAsNumber := 5 } { asString := "0" }
      rfl rfl rfl (by norm_num) rfl rfl⟩

/-! ### `getFromFaucet` (src/index.js lines 224-285) -/

structure GFFParams where
  toAddress : String
  privateKey : String
deriving DecidableEq, Repr

/-- Result of one `getFromFaucet` invocation: the HTTP response, the
network calls issued in order, the write (if any) performed on the
`FaucetIpHistory` table and the writes performed on the wallet table. -/
structure GFFOutcome where
  resp : HttpResp
  netCalls : List NetCall
  ipWrite : Option IpHistory
  walletWrites : List (String × String)
deriving DecidableEq, Repr

def getFromFaucet (db : String → Option NanoAccount) (net : NanoNetwork)
    (faucetAddress publicKey privateKey : String) (ts : ℤ)
    (sourceIp : String) (ipStored : Option IpHistory) (params : GFFParams) :
    GFFOutcome :=
  match db params.toAddress with
  | none =>
      { resp := response 400
          (RespBody.errObj (params.toAddress ++ " is an invalid wallet address"))
        netCalls := [], ipWrite := none, walletWrites := [] }
  | some acc =>
      if params.privateKey != acc.privateKey then
        { resp := response 400
            (RespBody.errObj ("invalid private key for wallet address " ++ params.toAddress))
          netCalls := [], ipWrite := none, walletWrites := [] }
      else
        let faucetEligibilityStatus := checkFaucetEligibility sourceIp ts ipStored
        if !faucetEligibilityStatus.isEligible then
          { resp := response 400
              (RespBody.errObj (faucetEligibilityStatus.reason.getD ""))
            netCalls := [], ipWrite := faucetEligibilityStatus.write, walletWrites := [] }
        else
          let faucetAccount : NanoAccount :=
            { address := faucetAddress, publicKey := publicKey, privateKey := privateKey }
          match net.updateWalletAccount faucetAccount with
          | none =>
              { resp := response 500 (RespBody.errObj "unable to retrieve faucet account info")
                netCalls := [NetCall.updateWalletAccount faucetAccount]
                ipWrite := faucetEligibilityStatus.write, walletWrites := [] }
          | some accountInfo =>
              if accountInfo.balanceAsNumber = 0 then
                { resp := response 400 (RespBody.errObj "Faucet balance is zero")
                  netCalls := [NetCall.updateWalletAccount faucetAccount]
                  ipWrite := faucetEligibilityStatus.write, walletWrites := [] }
              else
                match net.send faucetAccount params.toAddress
                    (AmountV.ofNumber (accountInfo.balanceAsNumber * FAUCET_PERCENT)) with
                | none =>
                    { resp := response 500
                        (RespBody.errObj ("unable to send from " ++ faucetAddress ++
                          " to " ++ params.toAddress))
                      netCalls := [NetCall.updateWalletAccount faucetAccount,
                        NetCall.send faucetAccount params.toAddress
                          (AmountV.ofNumber (accountInfo.balanceAsNumber * FAUCET_PERCENT))]
                      ipWrite := faucetEligibilityStatus.write, walletWrites := [] }
                | some res =>
                    { resp := response 200
                        (RespBody.faucetOk faucetAddress res.balanceAsString)
                      netCalls := [NetCall.updateWalletAccount faucetAccount,
                        NetCall.send faucetAccount params.toAddress
                          (AmountV.ofNumber (accountInfo.balanceAsNumber * FAUCET_PERCENT))]
                      ipWrite := faucetEligibilityStatus.write, walletWrites := [] }

/-- An eligible evaluation always carries a write for the history table. -/
lemma eligible_has_write (ip : String) (ts : ℤ) (st : Option IpHistory)
    (h : (checkFaucetEligibility ip ts st).isEligible = true) :
    ∃ w, (checkFaucetEligibility ip ts st).write = some w := by
  cases st with
  | none => exact ⟨_, rfl⟩
  | some hist =>
      simp only [checkFaucetEligibility] at h ⊢
      split_ifs at h ⊢
      · exact ⟨_, rfl⟩
      · exact ⟨_, rfl⟩

/-- Any write the eligibility evaluation performs is keyed by the
evaluated source IP. -/
lemma elig_write_ip (ip : String) (ts : ℤ) (st : Option IpHistory) (w : IpHistory)
    (h : (checkFaucetEligibility ip ts st).write = some w) : w.ipAddress = ip := by
  cases st with
  | none =>
      simp only [checkFaucetEligibility, Option.some.injEq] at h
      exact congrArg IpHistory.ipAddress h.symm
  | some hist =>
      simp only [checkFaucetEligibility] at h
      split_ifs at h
      · obtain rfl : _ = w := Option.some.inj h
        rfl
      · obtain rfl : _ = w := Option.some.inj h
        rfl

/-! ### Concrete inputs exercising the zero-balance path of `getFromFaucet` -/

def exDestAccount : NanoAccount :=
  { address := "nano_dest", publicKey := "dpub", privateKey := "dpriv" }

def exFaucetDb : String → Option NanoAccount :=
  fun a => if a == "nano_dest" then some exDestAccount else none

def exZeroFaucetNet : NanoNetwork :=
  { updateWalletAccount := fun _ => some { balanceAsNumber := 0 }
    send := fun _ _ _ => some { balanceAsString := "0" }
    sendMax := fun _ _ => some { balanceAsString := "0" } }

def exGFFParams : GFFParams := { toAddress := "nano_dest", privateKey := "dpriv" }

/-- C5 counterexample: a request from an IP with no prior history against
a zero-balance faucet is rejected with 400 before any payout send, yet
the request did mutate stored state — the eligibility check has already
written a fresh IP usage record before the balance was inspected. -/
theorem faucet_zero_balance_counterexample :
    ((getFromFaucet exFaucetDb exZeroFaucetNet "nano_faucet" "fpub" "fpriv" 0
        "1.2.3.4" none exGFFParams).resp =
      response 400 (RespBody.errObj "Faucet balance is zero") ∧
      (getFromFaucet exFaucetDb exZeroFaucetNet "nano_faucet" "fpub" "fpriv" 0
        "1.2.3.4" none exGFFParams).netCalls =
        [NetCall.updateWalletAccount
          { address := "nano_faucet", publicKey := "fpub", privateKey := "fpriv" }]) ∧
    (getFromFaucet exFaucetDb exZeroFaucetNet "nano_faucet" "fpub" "fpriv" 0
        "1.2.3.4" none exGFFParams).ipWrite ≠ none :=
  ⟨⟨rfl, rfl⟩, Option.some_ne_none _⟩

/-- C5 (amended): when the destination wallet exists, the supplied key
matches, the source IP passes the eligibility check, and the faucet
account-info query reports a zero balance, `getFromFaucet` rejects with
400 "Faucet balance is zero" before any payout send — the only network
call is the account-info query — and writes nothing to the wallet table;
but the IP usage record has already been written by the eligibility
check. -/
theorem faucet_zero_balance_rejected_after_ip_write
    (db : String → Option NanoAccount) (net : NanoNetwork)
    (fa pk sk : String) (ts : ℤ) (ip : String) (stored : Option IpHistory)
    (params : GFFParams) (acc : NanoAccount) (info : AccountInfo)
    (hacc : db params.toAddress = some acc)
    (hkey : params.privateKey = acc.privateKey)
    (helig : (checkFaucetEligibility ip ts stored).isEligible = true)
    (hinfo : net.updateWalletAccount
      { address := fa, publicKey := pk, privateKey := sk } = some info)
    (hbal : info.balanceAsNumber = 0) :
    getFromFaucet db net fa pk sk ts ip stored params =
      { resp := response 400 (RespBody.errObj "Faucet balance is zero")
        netCalls := [NetCall.updateWalletAccount
          { address := fa, publicKey := pk, privateKey := sk }]
        ipWrite := (checkFaucetEligibility ip ts stored).write
        walletWrites := [] } ∧
    ∃ w, (checkFaucetEligibility ip ts stored).write = some w := by
  refine ⟨?_, eligible_has_write ip ts stored helig⟩
  simp [getFromFaucet, hacc, hkey, helig, hinfo, hbal]

theorem faucet_zero_balance_rejected_after_ip_write_witness :
    (exFaucetDb exGFFParams.toAddress = some exDestAccount ∧
        exGFFParams.privateKey = exDestAccount.privateKey ∧
        (checkFaucetEligibility "1.2.3.4" 0 none).isEligible = true ∧
        exZeroFaucetNet.updateWalletAccount
          { address := "nano_faucet", publicKey := "fpub", privateKey := "fpriv" } =
          some { balanceAsNumber := 0 } ∧
        ({ balanceAsNumber := 0 } : AccountInfo).balanceAsNumber = 0) ∧
      (getFromFaucet exFaucetDb exZeroFaucetNet "nano_faucet" "fpub" "fpriv" 0
          "1.2.3.4" none exGFFParams =
        { resp := response 400 (RespBody.errObj "Faucet balance is zero")
          netCalls := [NetCall.updateWalletAccount
            { address := "nano_faucet", publicKey := "fpub", privateKey := "fpriv" }]
          ipWrite := (checkFaucetEligibility "1.2.3.4" 0 none).write
          walletWrites := [] } ∧
        ∃ w, (checkFaucetEligibility "1.2.3.4" 0 none).write = some w) :=
  ⟨⟨rfl, rfl, rfl, rfl, rfl⟩,
    faucet_zero_balance_rejected_after_ip_write exFaucetDb exZeroFaucetNet
      "nano_faucet" "fpub" "fpriv" 0 "1.2.3.4" none exGFFParams
      exDestAccount { balanceAsNumber := 0 } rfl rfl rfl rfl rfl⟩

/-- C10: no `getFromFaucet` run ever writes the wallet table — its
wallet-write log is empty on every path — and any record it writes to the
IP history table is keyed by the request's source IP. -/
theorem getFromFaucet_wallet_frame
    (db : String → Option NanoAccount) (net : NanoNetwork)
    (fa pk sk : String) (ts : ℤ) (ip : String) (stored : Option IpHistory)
    (params : GFFParams) :
    (getFromFaucet db net fa pk sk ts ip stored params).walletWrites = [] ∧
    ∀ w, (getFromFaucet db net fa pk sk ts ip stored params).ipWrite = some w →
      w.ipAddress = ip := by
  have hip := elig_write_ip ip ts stored
  simp only [getFromFaucet]
  split
  · exact ⟨rfl, fun w h => absurd h (by simp)⟩
  · split
    · exact ⟨rfl, fun w h => absurd h (by simp)⟩
    · split
      · exact ⟨rfl, fun w h => hip w h⟩
      · split
        · exact ⟨rfl, fun w h => hip w h⟩
        · split
          · exact ⟨rfl, fun w h => hip w h⟩
          · split
            · exact ⟨rfl, fun w h => hip w h⟩
            · exact ⟨rfl, fun w h => hip w h⟩

theorem getFromFaucet_wallet_frame_witness :
    (getFromFaucet exFaucetDb exZeroFaucetNet "nano_faucet" "fpub" "fpriv" 0
        "7.7.7.7" none exGFFParams).walletWrites = [] ∧
    ({ ipAddress := "7.7.7.7", numFaucetInvocations := 1, lastUsedTs := 0,
        expirationTime := jsMathRound (((0 : ℤ) : ℚ) / 1000) +
          FAUCET_IP_HISTORY_EXPIRATION_TIME_SECONDS } : IpHistory).ipAddress =
      "7.7.7.7" :=
  ⟨(getFromFaucet_wallet_frame exFaucetDb exZeroFaucetNet "nano_faucet" "fpub" "fpriv" 0
      "7.7.7.7" none exGFFParams).1,
    (getFromFaucet_wallet_frame exFaucetDb exZeroFaucetNet "nano_faucet" "fpub" "fpriv" 0
      "7.7.7.7" none exGFFParams).2
      { ipAddress := "7.7.7.7", numFaucetInvocations := 1, lastUsedTs := 0,
        expirationTime := jsMathRound (((0 : ℤ) : ℚ) / 1000) +
          FAUCET_IP_HISTORY_EXPIRATION_TIME_SECONDS } rfl⟩

/-! ### The sweep job (src/returnAllNanoToFaucet.js lines 263-316, 388-392) -/

/-- One item of the wallet-table scan, with the projected attributes. -/
structure SweepWallet where
  walletID : String
  publicKey : String
  privateKey : String
  balance : ℚ
  returnToFaucetEpoch : ℤ
deriving DecidableEq, Repr

/-- `asyncForEach`: awaits the callback on each array item in order. The
effects modelled are the wallet-balance writes the callback performs. -/
def asyncForEach {α : Type} (array : List α) (callback : α → List (String × String)) :
    List (String × String) :=
  match array with
  | [] => []
  | item :: rest => callback item ++ asyncForEach rest callback

/-- The loop body inside `sendNanoFromWallets` (lines 287-306): unmarshal
the wallet, send its whole balance to the faucet; an undefined send result
returns from the callback with no write, otherwise the updated balance is
written back for this wallet. -/
def sweepWalletStep (sendMax : NanoAccount → String → Option SendResult)
    (faucetAddress : String) (item : SweepWallet) : List (String × String) :=
  let nanoAccount : NanoAccount :=
    { address := item.walletID, publicKey := item.publicKey, privateKey := item.privateKey }
  match sendMax nanoAccount faucetAddress with
  | none => []
  | some sendRes => [(nanoAccount.address, sendRes.balanceAsString)]

def sendNanoFromWallets (sendMax : NanoAccount → String → Option SendResult)
    (faucetAddress : String) (items : List SweepWallet) : List (String × String) :=
  asyncForEach items (sweepWalletStep sendMax faucetAddress)

lemma asyncForEach_append {α : Type} (xs ys : List α)
    (callback : α → List (String × String)) :
    asyncForEach (xs ++ ys) callback = asyncForEach xs callback ++ asyncForEach ys callback := by
  induction xs with
  | nil => rfl
  | cons x xs ih => simp [asyncForEach, ih]

/-- Every write the sweep performs is keyed by the wallet id of some
scanned item. -/
lemma sweep_write_mem (sendMax : NanoAccount → String → Option SendResult)
    (fa : String) (items : List SweepWallet) (a b : String)
    (h : (a, b) ∈ sendNanoFromWallets sendMax fa items) :
    a ∈ items.map SweepWallet.walletID := by
  induction items with
  | nil => exact absurd h (by simp [sendNanoFromWallets, asyncForEach])
  | cons item rest ih =>
      simp only [sendNanoFromWallets, asyncForEach, List.mem_append] at h
      rcases h with h | h
      · simp only [sweepWalletStep] at h
        rcases hs : sendMax
            { address := item.walletID, publicKey := item.publicKey,
              privateKey := item.privateKey } fa with _ | res
        · rw [hs] at h
          exact absurd h (by simp)
        · rw [hs] at h
          simp only [List.mem_singleton, Prod.mk.injEq] at h
          simp [h.1]
      · simp [ih h]

/-- C9: a failed send for one scanned wallet (the network client
returning undefined) contributes no balance write and does not disturb
the processing of the wallets before or after it; in particular, when its
wallet id is fresh among the others, no write at all targets it. -/
theorem sweep_send_failure_isolated
    (sendMax : NanoAccount → String → Option SendResult) (fa : String)
    (pre post : List SweepWallet) (w : SweepWallet)
    (hfail : sendMax
      { address := w.walletID, publicKey := w.publicKey, privateKey := w.privateKey }
      fa = none) :
    sendNanoFromWallets sendMax fa (pre ++ w :: post) =
      sendNanoFromWallets sendMax fa pre ++ sendNanoFromWallets sendMax fa post ∧
    (w.walletID ∉ pre.map SweepWallet.walletID →
      w.walletID ∉ post.map SweepWallet.walletID →
      ∀ b, (w.walletID, b) ∉ sendNanoFromWallets sendMax fa (pre ++ w :: post)) := by
  have hstep : sweepWalletStep sendMax fa w = [] := by
    simp only [sweepWalletStep]
    rw [hfail]
  have hsplit : sendNanoFromWallets sendMax fa (pre ++ w :: post) =
      sendNanoFromWallets sendMax fa pre ++ sendNanoFromWallets sendMax fa post := by
    simp only [sendNanoFromWallets, asyncForEach_append, asyncForEach, hstep,
      List.nil_append]
  refine ⟨hsplit, fun hpre hpost b hmem => ?_⟩
  rw [hsplit] at hmem
  rcases List.mem_append.mp hmem with h | h
  · exact hpre (sweep_write_mem sendMax fa pre w.walletID b h)
  · exact hpost (sweep_write_mem sendMax fa post w.walletID b h)

def exSweepSendMax : NanoAccount → String → Option SendResult :=
  fun acc _ =>
    if acc.address == "nano_bad" then none else some { balanceAsString := "0" }

def exWalletA : SweepWallet :=
  { walletID := "nano_a", publicKey := "pa", privateKey := "ka"
    balance := 5, returnToFaucetEpoch := 0 }

def exWalletBad : SweepWallet :=
  { walletID := "nano_bad", publicKey := "pb", privateKey := "kb"
    balance := 7, returnToFaucetEpoch := 0 }

def exWalletC : SweepWallet :=
  { walletID := "nano_c", publicKey := "pc", privateKey := "kc"
    balance := 9, returnToFaucetEpoch := 0 }

theorem sweep_send_failure_isolated_witness :
    exSweepSendMax
      { address := exWalletBad.walletID, publicKey := exWalletBad.publicKey,
        privateKey := exWalletBad.privateKey } "nano_faucet" = none ∧
    (sendNanoFromWallets exSweepSendMax "nano_faucet"
        ([exWalletA] ++ exWalletBad :: [exWalletC]) =
      sendNanoFromWallets exSweepSendMax "nano_faucet" [exWalletA] ++
        sendNanoFromWallets exSweepSendMax "nano_faucet" [exWalletC] ∧
      (exWalletBad.walletID ∉ [exWalletA].map SweepWallet.walletID →
        exWalletBad.walletID ∉ [exWalletC].map SweepWallet.walletID →
        ∀ b, (exWalletBad.walletID, b) ∉
          sendNanoFromWallets exSweepSendMax "nano_faucet"
            ([exWalletA] ++ exWalletBad :: [exWalletC]))) :=
  ⟨rfl,
    sweep_send_failure_isolated exSweepSendMax "nano_faucet"
      [exWalletA] [exWalletC] exWalletBad rfl⟩

end TryNano
